import Mathlib

/-!
Verification of the preview/thumbnail subsystem of `app.py` (a Flask file
viewer).  The Python source is shallowly embedded: the filesystem, the
`mimetypes` library, `hashlib.md5` and the external `ffmpeg` process are
modelled as explicit parameters (an `Env` record and an `FS` state), and the
route handler `preview` together with its helpers `hash_path` and
`generate_video_thumbnail` are translated line by line into pure Lean
functions that thread the filesystem state and count external-process
invocations.
-/

/-- A snapshot of the filesystem: the set of existing regular files and the
set of existing directories, each stored as normalized absolute paths. -/
structure FS where
  files : List String
  dirs : List String
deriving DecidableEq, Repr

/-- Python's `str.startswith`: the first string's characters begin with the
second's.  (A structurally recursive counterpart of `String.startsWith`.) -/
def str_startswith (s pre : String) : Bool :=
  pre.data.isPrefixOf s.data

/-- Python's `str.endswith`.  (A structurally recursive counterpart of
`String.endsWith`.) -/
def str_endswith (s suf : String) : Bool :=
  suf.data.isSuffixOf s.data

/-- Split a character list at `'/'` separators, accumulating the current
segment in reverse. -/
def splitSlash : List Char → List Char → List String
  | [], cur => [String.mk cur.reverse]
  | c :: cs, cur =>
    if c = '/' then String.mk cur.reverse :: splitSlash cs []
    else splitSlash cs (c :: cur)

/-- Resolve `"."`/`".."`/empty segments of an absolute POSIX path, mirroring
what the OS does when `os.path.isfile` / `os.path.exists` look a path up
(no symlinks in the model, so lexical resolution coincides with the OS's). -/
def os_path_normpath (p : String) : String :=
  "/" ++ String.intercalate "/"
    ((splitSlash p.data []).foldl
      (fun acc seg =>
        if seg = "" || seg = "." then acc
        else if seg = ".." then acc.dropLast
        else acc ++ [seg]) [])

/-- Python `os.path.join` for two POSIX components (`app.py` lines 126, 168,
185): an absolute second component replaces the first. -/
def os_path_join (a b : String) : String :=
  if str_startswith b "/" then b
  else if a = "" then b
  else if str_endswith a "/" then a ++ b
  else a ++ "/" ++ b

/-- Python `os.path.isfile` against an `FS` snapshot. -/
def os_path_isfile (fs : FS) (p : String) : Bool :=
  decide (os_path_normpath p ∈ fs.files)

/-- Python `os.path.isdir` against an `FS` snapshot. -/
def os_path_isdir (fs : FS) (p : String) : Bool :=
  decide (os_path_normpath p ∈ fs.dirs)

/-- Python `os.path.exists` against an `FS` snapshot (`app.py` line 108). -/
def os_path_exists (fs : FS) (p : String) : Bool :=
  os_path_isfile fs p || os_path_isdir fs p

/-- Add a regular file to the snapshot (what a well-behaved external tool
does when it writes its output). -/
def FS.addFile (fs : FS) (p : String) : FS :=
  ⟨os_path_normpath p :: fs.files, fs.dirs⟩

/-- The process environment of `app.py`: the configured root (`ROOT_DIR`,
line 9), plus the three external collaborators the handler calls into —
`mimetypes.guess_type` (line 172; extension-based, first component of the
pair), `hashlib.md5(...).hexdigest()` (line 105) and `subprocess.run`
(line 117, returning the exit-status as a `Bool` and the filesystem the
external process leaves behind). -/
structure Env where
  root : String
  guess_type : String → Option String
  md5_hexdigest : String → String
  run : List String → FS → Bool × FS

/-- `THUMBNAIL_DIR` of `app.py` line 10. -/
def THUMBNAIL_DIR : String := "/tmp/web_file_viewer"

/-- `hash_path` of `app.py` lines 104–105: the md5 hex digest of the
(logical) path string. -/
def hash_path (env : Env) (path : String) : String :=
  env.md5_hexdigest path

/-- The ffmpeg command list built at `app.py` lines 110–115. -/
def ffmpeg_cmd (video_path thumb_path : String) : List String :=
  ["ffmpeg", "-y", "-i", video_path,
   "-ss", "00:00:02", "-vframes", "1",
   "-vf", "scale=320:-1",
   thumb_path]

/-- Result of `generate_video_thumbnail`: the returned boolean, the
filesystem afterwards, and how many external processes were launched. -/
structure GenResult where
  success : Bool
  fs : FS
  invocations : Nat
deriving DecidableEq, Repr

/-- `generate_video_thumbnail` of `app.py` lines 107–121: return `True`
immediately if the destination already exists (line 108), otherwise run
ffmpeg with `check=True`, returning `True` on a zero exit and `False` on
any exception (nonzero exit or launch failure). -/
def generate_video_thumbnail (env : Env) (fs : FS) (video_path thumb_path : String) : GenResult :=
  if os_path_exists fs thumb_path then
    ⟨true, fs, 0⟩
  else
    let r := env.run (ffmpeg_cmd video_path thumb_path) fs
    ⟨r.1, r.2, 1⟩

/-- The JSON object `jsonify`-ed by the `/preview` handler: exactly the three
fields `type`, `url`, `thumb_url` in every branch (`app.py` lines 177–181,
191–195, 197–201). -/
structure Descriptor where
  type_ : String
  url : String
  thumb_url : Option String
deriving DecidableEq, Repr

/-- Outcome of the `/preview` route: either an HTTP error status (from
`abort`) or a JSON descriptor. -/
inductive PreviewResult where
  | err (code : Nat)
  | ok (d : Descriptor)
deriving DecidableEq, Repr

/-- Full observable outcome of one `/preview` request: the HTTP result, the
filesystem afterwards, and the number of external-process invocations. -/
structure Outcome where
  result : PreviewResult
  fs : FS
  invocations : Nat
deriving DecidableEq, Repr

/-- The `/preview` route handler of `app.py` lines 162–201, line by line:
`request.args.get("file")` is the `Option String` argument (`if not
file_path` is true for both `None` and the empty string); then the 404
check, the 415 check, and the image / video / other branches. -/
def preview (env : Env) (fs : FS) (file_param : Option String) : Outcome :=
  match file_param with
  | none => ⟨.err 400, fs, 0⟩
  | some file_path =>
    if file_path = "" then ⟨.err 400, fs, 0⟩
    else
      let abs_path := os_path_join env.root file_path
      if !(os_path_isfile fs abs_path) then ⟨.err 404, fs, 0⟩
      else
        match env.guess_type abs_path with
        | none => ⟨.err 415, fs, 0⟩
        | some mime =>
          if str_startswith mime "image/" then
            ⟨.ok ⟨"image", "/" ++ file_path, some ("/" ++ file_path)⟩, fs, 0⟩
          else if str_startswith mime "video/" then
            let hashed := hash_path env file_path
            let thumb_filename := hashed ++ ".jpg"
            let thumb_path := os_path_join THUMBNAIL_DIR thumb_filename
            let g := generate_video_thumbnail env fs abs_path thumb_path
            if !g.success then ⟨.err 500, g.fs, g.invocations⟩
            else ⟨.ok ⟨"video", "/" ++ file_path, some ("/thumbnail/" ++ thumb_filename)⟩, g.fs, g.invocations⟩
          else
            ⟨.ok ⟨"file", "/" ++ file_path, none⟩, fs, 0⟩

/-- The containment predicate of the spec (§3): the resolved location lies
within the configured root.  Stated from the spec's words, to be compared
with what `preview` actually checks. -/
def withinRoot (root p : String) : Bool :=
  os_path_normpath p = os_path_normpath root || str_startswith (os_path_normpath p) (os_path_normpath root ++ "/")

/-- The first atomic step of `generate_video_thumbnail` as executed by one
thread: the `os.path.exists` check of `app.py` line 108. -/
def generate_check (fs : FS) (thumb_path : String) : Bool :=
  os_path_exists fs thumb_path

/-- The second atomic step of `generate_video_thumbnail`: the
`subprocess.run` invocation of `app.py` line 117. -/
def generate_run (env : Env) (fs : FS) (video_path thumb_path : String) : Bool × FS :=
  env.run (ffmpeg_cmd video_path thumb_path) fs

/-- Joint outcome of two threads running `generate_video_thumbnail` for the
same destination: each thread's returned boolean, the final filesystem, and
the total number of external-process invocations. -/
structure TwoGenResult where
  success₁ : Bool
  success₂ : Bool
  fs : FS
  invocations : Nat
deriving DecidableEq, Repr

/-- Two threads executing `generate_video_thumbnail` concurrently for the
same destination, under the interleaving check₁ · check₂ · run₁ · run₂.
The source permits this interleaving: no lock serializes the window between
the existence check (line 108) and the process invocation (line 117), so
both threads can observe the destination absent before either has run
ffmpeg, and then both run it. -/
def generate_two_interleaved (env : Env) (fs₀ : FS) (video_path thumb_path : String) : TwoGenResult :=
  if generate_check fs₀ thumb_path then
    ⟨true, true, fs₀, 0⟩
  else
    let r₁ := generate_run env fs₀ video_path thumb_path
    let r₂ := generate_run env r₁.2 video_path thumb_path
    ⟨r₁.1, r₂.1, r₂.2, 2⟩

/-- Sanity: the sequential `generate_video_thumbnail` is exactly the
check step followed, on a miss, by the run step. -/
lemma generate_video_thumbnail_eq_steps (env : Env) (fs : FS) (v t : String) :
    generate_video_thumbnail env fs v t =
      if generate_check fs t then ⟨true, fs, 0⟩
      else ⟨(generate_run env fs v t).1, (generate_run env fs v t).2, 1⟩ := rfl

/-! Concrete sample collaborators, used to instantiate the theorems below.
They stand in for the external libraries (`mimetypes`, `hashlib`) and for
possible behaviours of the external ffmpeg process. -/

/-- A fragment of Python's `mimetypes.guess_type` table, extension based. -/
def sample_mime (p : String) : Option String :=
  if str_endswith p ".png" then some "image/png"
  else if str_endswith p ".mp4" then some "video/mp4"
  else if str_endswith p ".txt" then some "text/plain"
  else none

/-- A stand-in for `hashlib.md5(...).hexdigest()` (any deterministic digest
function; the handler only concatenates its output). -/
def sample_md5 (s : String) : String :=
  "d" ++ toString s.length

/-- An external process that writes its output file (the last element of the
ffmpeg command) and exits with status 0. -/
def run_writes_ok : List String → FS → Bool × FS :=
  fun cmd fs => (true, fs.addFile (cmd.getLast?.getD ""))

/-- An external process that writes partial output to its destination and
then exits with a nonzero status. -/
def run_writes_fail : List String → FS → Bool × FS :=
  fun cmd fs => (false, fs.addFile (cmd.getLast?.getD ""))

/-- An external process that exits with a nonzero status without writing
anything. -/
def run_noop_fail : List String → FS → Bool × FS :=
  fun _ fs => (false, fs)

/-- A sample environment whose ffmpeg succeeds and writes its output. -/
def senv : Env := ⟨"/srv/data", sample_mime, sample_md5, run_writes_ok⟩

/-- A sample environment whose ffmpeg fails after writing partial output. -/
def senv_fail_partial : Env := ⟨"/srv/data", sample_mime, sample_md5, run_writes_fail⟩

/-- A sample environment whose ffmpeg fails cleanly. -/
def senv_fail : Env := ⟨"/srv/data", sample_mime, sample_md5, run_noop_fail⟩

def fs_xyz : FS := ⟨["/srv/data/notes.xyz"], ["/srv/data"]⟩
def fs_txt : FS := ⟨["/srv/data/docs/readme.txt"], ["/srv/data", "/srv/data/docs"]⟩
def fs_vid : FS := ⟨["/srv/data/videos/clip.mp4"], ["/srv/data", "/srv/data/videos"]⟩
def fs_png : FS := ⟨["/srv/data/pics/a.png"], ["/srv/data", "/srv/data/pics"]⟩
def fs_secret : FS := ⟨["/srv/secret.png"], ["/srv/data"]⟩

/-! Helper lemmas about the sample external process `run_writes_ok`. -/

/-- On success, `run_writes_ok` has written its output file, the last
element of the command line. -/
lemma run_writes_ok_writes (c : List String) (f : FS) :
    (run_writes_ok c f).1 = true →
    os_path_exists (run_writes_ok c f).2 (c.getLast?.getD "") = true := by
  intro _
  simp [run_writes_ok, os_path_exists, os_path_isfile, FS.addFile]

/-- `run_writes_ok` never removes an existing file. -/
lemma run_writes_ok_preserves (c : List String) (f : FS) (p : String)
    (h : os_path_isfile f p = true) :
    os_path_isfile (run_writes_ok c f).2 p = true := by
  simp [run_writes_ok, os_path_isfile, FS.addFile] at *
  exact Or.inr h

/-! Theorems about the embedded handler, one per specification claim. -/

/-- Claim C8: a `/preview` request with a missing (or empty, which Python's
`if not file_path` treats the same) `file` parameter fails with HTTP 400,
and a request whose path does not name an existing regular file fails with
HTTP 404 — in both cases before any classification or generation: the
filesystem is unchanged and no external process is invoked, whatever
`guess_type` would say. -/
theorem preview_early_errors (env : Env) (fs : FS) (fp : String)
    (h0 : fp ≠ "")
    (h1 : os_path_isfile fs (os_path_join env.root fp) = false) :
    preview env fs none = ⟨.err 400, fs, 0⟩ ∧
    preview env fs (some "") = ⟨.err 400, fs, 0⟩ ∧
    preview env fs (some fp) = ⟨.err 404, fs, 0⟩ := by
  refine ⟨rfl, rfl, ?_⟩
  simp [preview, h0, h1]

/-- Claim C8, witness: the theorem at a concrete missing path. -/
theorem preview_early_errors_witness :
    preview senv fs_vid none = ⟨.err 400, fs_vid, 0⟩ ∧
    preview senv fs_vid (some "") = ⟨.err 400, fs_vid, 0⟩ ∧
    preview senv fs_vid (some "missing.png") = ⟨.err 404, fs_vid, 0⟩ :=
  preview_early_errors senv fs_vid "missing.png" (by decide) (by decide)

/-- Claim C9: for every existing file whose content-type starts with
`image/`, `/preview` succeeds and the descriptor's `thumb_url` equals its
`url`, with the filesystem unchanged (no separate artifact) and no external
process invoked. -/
theorem preview_image_thumb_eq_source (env : Env) (fs : FS) (fp m : String)
    (h0 : fp ≠ "")
    (h1 : os_path_isfile fs (os_path_join env.root fp) = true)
    (hm : env.guess_type (os_path_join env.root fp) = some m)
    (himg : str_startswith m "image/" = true) :
    preview env fs (some fp) =
      ⟨.ok ⟨"image", "/" ++ fp, some ("/" ++ fp)⟩, fs, 0⟩ := by
  simp [preview, h0, h1, hm, himg]

/-- Claim C9, witness: the spec's scenario `pics/a.png`. -/
theorem preview_image_thumb_eq_source_witness :
    preview senv fs_png (some "pics/a.png") =
      ⟨.ok ⟨"image", "/" ++ "pics/a.png", some ("/" ++ "pics/a.png")⟩, fs_png, 0⟩ :=
  preview_image_thumb_eq_source senv fs_png "pics/a.png" "image/png"
    (by decide) (by decide) (by decide) (by decide)

/-- Claim C1, counterexample: `notes.xyz` is an existing, non-directory
file whose content-type cannot be determined from its name, yet `/preview`
does not succeed — it aborts with HTTP 415 (`app.py` lines 173–174), so
classification of a mime-less file is an error, not `Other`. -/
theorem preview_no_mime_aborts_415 :
    os_path_isfile fs_xyz (os_path_join senv.root "notes.xyz") = true ∧
    os_path_isdir fs_xyz (os_path_join senv.root "notes.xyz") = false ∧
    senv.guess_type (os_path_join senv.root "notes.xyz") = none ∧
    preview senv fs_xyz (some "notes.xyz") = ⟨.err 415, fs_xyz, 0⟩ := by
  decide

/-- Claim C1, amended: for every existing, non-directory file whose name
yields a recognized content-type that is neither `image/*` nor `video/*`,
`/preview` succeeds with `thumb_url = null`; a file whose content-type
cannot be determined at all instead fails with HTTP 415. -/
theorem preview_other_mime_null_thumbnail (env : Env) (fs : FS) (fp m : String)
    (h0 : fp ≠ "")
    (h1 : os_path_isfile fs (os_path_join env.root fp) = true)
    (hm : env.guess_type (os_path_join env.root fp) = some m)
    (himg : str_startswith m "image/" = false)
    (hvid : str_startswith m "video/" = false) :
    preview env fs (some fp) = ⟨.ok ⟨"file", "/" ++ fp, none⟩, fs, 0⟩ := by
  simp [preview, h0, h1, hm, himg, hvid]

/-- Claim C1, witness: the spec's scenario `docs/readme.txt`
(content-type `text/plain`). -/
theorem preview_other_mime_null_thumbnail_witness :
    preview senv fs_txt (some "docs/readme.txt") =
      ⟨.ok ⟨"file", "/" ++ "docs/readme.txt", none⟩, fs_txt, 0⟩ :=
  preview_other_mime_null_thumbnail senv fs_txt "docs/readme.txt" "text/plain"
    (by decide) (by decide) (by decide) (by decide) (by decide)

/-- Claim C6: for every path with a `video/*` content-type, `/preview`
derives the cache key as `hash_path` of the logical path string (not of the
absolute path or the content), and on generation success returns exactly
`{type: "video", url: "/" ++ path, thumb_url: "/thumbnail/" ++ key ++ ".jpg"}`. -/
theorem preview_video_descriptor (env : Env) (fs : FS) (fp m : String)
    (h0 : fp ≠ "")
    (h1 : os_path_isfile fs (os_path_join env.root fp) = true)
    (hm : env.guess_type (os_path_join env.root fp) = some m)
    (himg : str_startswith m "image/" = false)
    (hvid : str_startswith m "video/" = true)
    (hs : (generate_video_thumbnail env fs (os_path_join env.root fp)
            (os_path_join THUMBNAIL_DIR (hash_path env fp ++ ".jpg"))).success = true) :
    preview env fs (some fp) =
      ⟨.ok ⟨"video", "/" ++ fp, some ("/thumbnail/" ++ hash_path env fp ++ ".jpg")⟩,
        (generate_video_thumbnail env fs (os_path_join env.root fp)
          (os_path_join THUMBNAIL_DIR (hash_path env fp ++ ".jpg"))).fs,
        (generate_video_thumbnail env fs (os_path_join env.root fp)
          (os_path_join THUMBNAIL_DIR (hash_path env fp ++ ".jpg"))).invocations⟩ := by
  simp [preview, h0, h1, hm, himg, hvid, hs, String.append_assoc]

/-- Claim C6, witness: the spec's scenario `videos/clip.mp4` with
content-type `video/mp4`, key `hash_path senv "videos/clip.mp4"`. -/
theorem preview_video_descriptor_witness :
    preview senv fs_vid (some "videos/clip.mp4") =
      ⟨.ok ⟨"video", "/" ++ "videos/clip.mp4",
          some ("/thumbnail/" ++ hash_path senv "videos/clip.mp4" ++ ".jpg")⟩,
        (generate_video_thumbnail senv fs_vid (os_path_join senv.root "videos/clip.mp4")
          (os_path_join THUMBNAIL_DIR (hash_path senv "videos/clip.mp4" ++ ".jpg"))).fs,
        (generate_video_thumbnail senv fs_vid (os_path_join senv.root "videos/clip.mp4")
          (os_path_join THUMBNAIL_DIR (hash_path senv "videos/clip.mp4" ++ ".jpg"))).invocations⟩ :=
  preview_video_descriptor senv fs_vid "videos/clip.mp4" "video/mp4"
    (by decide) (by decide) (by decide) (by decide) (by decide) (by decide)

/-- Claim C10: every successful `/preview` response is a `Descriptor` — by
construction a record with exactly the three fields `type`, `url`,
`thumb_url` — whose `type` is one of `"image"`, `"video"`, `"file"` and
whose `url` is `"/"` prepended to the `file` query parameter exactly as
supplied. -/
theorem preview_success_shape (env : Env) (fs fs' : FS) (fp : String)
    (d : Descriptor) (n : Nat)
    (h : preview env fs (some fp) = ⟨.ok d, fs', n⟩) :
    (d.type_ = "image" ∨ d.type_ = "video" ∨ d.type_ = "file") ∧
    d.url = "/" ++ fp := by
  by_cases h0 : fp = ""
  · rw [h0] at h; simp [preview] at h
  · simp only [preview, if_neg h0] at h
    split at h
    · simp at h
    · split at h
      · simp at h
      · split at h
        · injection h with hres hfs hn
          injection hres with hd
          subst hd
          exact ⟨Or.inl rfl, rfl⟩
        · split at h
          · split at h
            · simp at h
            · injection h with hres hfs hn
              injection hres with hd
              subst hd
              exact ⟨Or.inr (Or.inl rfl), rfl⟩
          · injection h with hres hfs hn
            injection hres with hd
            subst hd
            exact ⟨Or.inr (Or.inr rfl), rfl⟩

/-- Claim C10, witness: the theorem at the concrete `docs/readme.txt`
response. -/
theorem preview_success_shape_witness :
    ((Descriptor.mk "file" ("/" ++ "docs/readme.txt") none).type_ = "image" ∨
     (Descriptor.mk "file" ("/" ++ "docs/readme.txt") none).type_ = "video" ∨
     (Descriptor.mk "file" ("/" ++ "docs/readme.txt") none).type_ = "file") ∧
    (Descriptor.mk "file" ("/" ++ "docs/readme.txt") none).url = "/" ++ "docs/readme.txt" :=
  preview_success_shape senv fs_txt fs_txt "docs/readme.txt"
    ⟨"file", "/" ++ "docs/readme.txt", none⟩ 0 (by decide)

/-- Claim C7: under the spec's design guarantee that the external tool
leaves a file at the destination when it exits with status 0 (`hwell`),
`generate_video_thumbnail` reports failure exactly when the destination was
absent and the external process failed to launch or exited nonzero, and
whenever it reports success a file is present at the destination
afterwards. -/
theorem generate_exit_status_authoritative (env : Env) (fs : FS) (v t : String)
    (hwell : (env.run (ffmpeg_cmd v t) fs).1 = true →
      os_path_exists (env.run (ffmpeg_cmd v t) fs).2 t = true) :
    ((generate_video_thumbnail env fs v t).success = false ↔
      os_path_exists fs t = false ∧ (env.run (ffmpeg_cmd v t) fs).1 = false) ∧
    ((generate_video_thumbnail env fs v t).success = true →
      os_path_exists (generate_video_thumbnail env fs v t).fs t = true) := by
  cases hg : os_path_exists fs t with
  | true =>
    constructor
    · simp [generate_video_thumbnail, hg]
    · intro _
      simp [generate_video_thumbnail, hg]
  | false =>
    cases hrun : env.run (ffmpeg_cmd v t) fs with
    | mk rok rfs =>
      rw [hrun] at hwell
      cases rok with
      | true =>
        constructor
        · simp [generate_video_thumbnail, hg, hrun]
        · intro _
          simp only [generate_video_thumbnail, hg, hrun, Bool.false_eq_true, if_false]
          exact hwell rfl
      | false =>
        constructor
        · simp [generate_video_thumbnail, hg, hrun]
        · intro hcontra
          simp [generate_video_thumbnail, hg, hrun] at hcontra

/-- Claim C7, witness: the theorem at a concrete uncached destination with
the sample succeeding tool. -/
theorem generate_exit_status_authoritative_witness :
    ((generate_video_thumbnail senv fs_vid "/srv/data/videos/clip.mp4" "/tmp/web_file_viewer/t.jpg").success = false ↔
      os_path_exists fs_vid "/tmp/web_file_viewer/t.jpg" = false ∧
      (senv.run (ffmpeg_cmd "/srv/data/videos/clip.mp4" "/tmp/web_file_viewer/t.jpg") fs_vid).1 = false) ∧
    ((generate_video_thumbnail senv fs_vid "/srv/data/videos/clip.mp4" "/tmp/web_file_viewer/t.jpg").success = true →
      os_path_exists (generate_video_thumbnail senv fs_vid "/srv/data/videos/clip.mp4" "/tmp/web_file_viewer/t.jpg").fs
        "/tmp/web_file_viewer/t.jpg" = true) :=
  generate_exit_status_authoritative senv fs_vid "/srv/data/videos/clip.mp4"
    "/tmp/web_file_viewer/t.jpg" (by decide)

/-- Claim C4: for every video path whose first `/preview` resolution
succeeds, resolving it again yields the same descriptor (hence the same
`thumb_url`: the cache key is a pure function of the path) with zero
external-process invocations, because `generate_video_thumbnail` treats the
already-existing destination as success.  The environment hypotheses are
the spec's design guarantees on the external tool: on a zero exit it has
written its output file (the last element of the command line), and it
never removes existing files. -/
theorem preview_video_idempotent (env : Env) (fs fs₁ : FS) (fp m : String)
    (d : Descriptor) (n : Nat)
    (hwell : ∀ c f, (env.run c f).1 = true →
      os_path_exists (env.run c f).2 (c.getLast?.getD "") = true)
    (hpres : ∀ c f p, os_path_isfile f p = true →
      os_path_isfile (env.run c f).2 p = true)
    (hmime : env.guess_type (os_path_join env.root fp) = some m)
    (himg : str_startswith m "image/" = false)
    (hvid : str_startswith m "video/" = true)
    (hfirst : preview env fs (some fp) = ⟨.ok d, fs₁, n⟩) :
    preview env fs₁ (some fp) = ⟨.ok d, fs₁, 0⟩ := by
  by_cases h0 : fp = ""
  · rw [h0] at hfirst; simp [preview] at hfirst
  · cases hb : os_path_isfile fs (os_path_join env.root fp) with
    | false =>
      simp [preview, h0, hb] at hfirst
    | true =>
      cases hg : os_path_exists fs (os_path_join THUMBNAIL_DIR (hash_path env fp ++ ".jpg")) with
      | true =>
        have hkey : preview env fs (some fp) =
            ⟨.ok ⟨"video", "/" ++ fp, some ("/thumbnail/" ++ (hash_path env fp ++ ".jpg"))⟩, fs, 0⟩ := by
          simp [preview, h0, hb, hmime, himg, hvid, generate_video_thumbnail, hg]
        rw [hkey] at hfirst
        injection hfirst with hres hfs hn
        injection hres with hd
        subst hd
        subst hfs
        exact hkey
      | false =>
        cases hrun : env.run (ffmpeg_cmd (os_path_join env.root fp)
            (os_path_join THUMBNAIL_DIR (hash_path env fp ++ ".jpg"))) fs with
        | mk rok rfs =>
          cases rok with
          | false =>
            have hkey : preview env fs (some fp) = ⟨.err 500, rfs, 1⟩ := by
              simp [preview, h0, hb, hmime, himg, hvid, generate_video_thumbnail, hg, hrun]
            rw [hkey] at hfirst
            simp at hfirst
          | true =>
            have hkey : preview env fs (some fp) =
                ⟨.ok ⟨"video", "/" ++ fp, some ("/thumbnail/" ++ (hash_path env fp ++ ".jpg"))⟩, rfs, 1⟩ := by
              simp [preview, h0, hb, hmime, himg, hvid, generate_video_thumbnail, hg, hrun]
            rw [hkey] at hfirst
            injection hfirst with hres hfs hn
            injection hres with hd
            subst hd
            subst hfs
            have hb' : os_path_isfile rfs (os_path_join env.root fp) = true := by
              have h := hpres (ffmpeg_cmd (os_path_join env.root fp)
                (os_path_join THUMBNAIL_DIR (hash_path env fp ++ ".jpg"))) fs
                (os_path_join env.root fp) hb
              rw [hrun] at h
              exact h
            have hex : os_path_exists rfs
                (os_path_join THUMBNAIL_DIR (hash_path env fp ++ ".jpg")) = true := by
              have h := hwell (ffmpeg_cmd (os_path_join env.root fp)
                (os_path_join THUMBNAIL_DIR (hash_path env fp ++ ".jpg"))) fs
              rw [hrun] at h
              exact h rfl
            simp [preview, h0, hb', hmime, himg, hvid, generate_video_thumbnail, hex]

/-- Claim C4, witness: with the sample succeeding tool, the state after the
first resolution of `videos/clip.mp4` resolves again to the same
descriptor with zero invocations. -/
theorem preview_video_idempotent_witness :
    preview senv (preview senv fs_vid (some "videos/clip.mp4")).fs (some "videos/clip.mp4") =
      ⟨.ok ⟨"video", "/" ++ "videos/clip.mp4",
          some ("/thumbnail/" ++ (hash_path senv "videos/clip.mp4" ++ ".jpg"))⟩,
        (preview senv fs_vid (some "videos/clip.mp4")).fs, 0⟩ :=
  preview_video_idempotent senv fs_vid (preview senv fs_vid (some "videos/clip.mp4")).fs
    "videos/clip.mp4" "video/mp4"
    ⟨"video", "/" ++ "videos/clip.mp4",
      some ("/thumbnail/" ++ (hash_path senv "videos/clip.mp4" ++ ".jpg"))⟩ 1
    run_writes_ok_writes run_writes_ok_preserves
    (by decide) (by decide) (by decide) (by decide)

/-- The thumbnail destination path for the logical path `videos/clip.mp4`
under the sample digest. -/
def clip_thumb : String :=
  os_path_join THUMBNAIL_DIR (sample_md5 "videos/clip.mp4" ++ ".jpg")

/-- Outcome of a first `/preview` request for `videos/clip.mp4` when the
external tool writes partial output and then exits nonzero. -/
def c2_first : Outcome := preview senv_fail_partial fs_vid (some "videos/clip.mp4")

/-- Claim C2: when the external tool exits nonzero, `/preview` does fail
with HTTP 500 — but `generate_video_thumbnail` removes nothing on failure
(`app.py` lines 119–121), so if the tool had partially written the
destination before failing, the artifact stays under the cache key and an
identical retry is misreported as a cache hit, returning HTTP 200 with
zero invocations.  This evaluates the handler on that failing input. -/
theorem preview_failed_generation_poisons_cache :
    os_path_exists fs_vid clip_thumb = false ∧
    c2_first.result = .err 500 ∧
    c2_first.invocations = 1 ∧
    os_path_exists c2_first.fs clip_thumb = true ∧
    preview senv_fail_partial c2_first.fs (some "videos/clip.mp4") =
      ⟨.ok ⟨"video", "/" ++ "videos/clip.mp4",
          some ("/thumbnail/" ++ (sample_md5 "videos/clip.mp4" ++ ".jpg"))⟩,
        c2_first.fs, 0⟩ := by
  decide

/-- Claim C3: `/preview` joins the user-supplied path onto the root with no
containment check (`app.py` line 168), so a `../` path whose resolution
escapes the configured root is not rejected: here `../secret.png` resolves
to `/secret.png`, outside root `/srv/data`, yet the request succeeds with a
descriptor for it. -/
theorem preview_serves_path_outside_root :
    os_path_isfile fs_secret (os_path_join senv.root "../secret.png") = true ∧
    withinRoot senv.root (os_path_join senv.root "../secret.png") = false ∧
    preview senv fs_secret (some "../secret.png") =
      ⟨.ok ⟨"image", "/" ++ "../secret.png", some ("/" ++ "../secret.png")⟩, fs_secret, 0⟩ := by
  decide

/-- Claim C5: two concurrent first-time `generate_video_thumbnail` calls
for the same destination, interleaved as check₁ · check₂ · run₁ · run₂ —
which nothing in the source forbids, as there is no per-key lock between
the existence check (line 108) and the invocation (line 117) — both observe
the destination absent and both invoke the external process: two
invocations, not the exactly-one the spec requires. -/
theorem generate_race_two_invocations :
    generate_check fs_vid clip_thumb = false ∧
    (generate_two_interleaved senv fs_vid (os_path_join senv.root "videos/clip.mp4") clip_thumb).success₁ = true ∧
    (generate_two_interleaved senv fs_vid (os_path_join senv.root "videos/clip.mp4") clip_thumb).success₂ = true ∧
    (generate_two_interleaved senv fs_vid (os_path_join senv.root "videos/clip.mp4") clip_thumb).invocations = 2 := by
  decide
